import Mathlib

/-!
Verification of the document job orchestration and cross-system consistency
engine of the llm-ai-service repository, as a shallow embedding in Lean.

The definitions below are translated from the Python sources:
  * `src/models/document_job.py`   (job model, status transitions, table indexes)
  * `src/models/document.py`       (document row, storage status strings)
  * `src/crud/document.py`         (soft delete / restore row updates, dedup lookup)
  * `src/utils/minio_storage.py`   (versioned object store: delete markers, restore)
  * `src/services/vector_service.py`   (stage execution dispatch, error handling)
  * `src/services/document_service.py` (upload dedup and upload error handling)
  * `src/workers/document/object_storage.py` (celery tasks: soft delete with
    compensating restore, retention fan-out)
  * `src/workers/document/vector_storage.py` (vectorization task retry policy)

Machine-level details are modelled as follows: timestamps and ids are `Nat`,
object-store version ids are `String`, fallible Python code returns `Except`,
and the queue's bounded redelivery (celery `self.retry` with `max_retries`)
is unrolled into structural recursion on the remaining retry budget.
-/

/-- Job status values from `DocumentJobStatus` in `src/models/document_job.py`
(stored lowercase in the `status` column). -/
inductive DocumentJobStatus
  | pending
  | running
  | success
  | failure
  | retrying
  | timeout
  | cancelled
deriving DecidableEq, Repr

/-- Job types from `DocumentJobType` in `src/models/document_job.py`. -/
inductive DocumentJobType
  | upload_document
  | validate_file
  | extract_text
  | parse_pdf
  | ocr
  | chunk_text
  | embed_chunks
  | classify_content
  | generate_preview
  | convert_to_web
deriving DecidableEq, Repr

/-- Python runtime errors that the embedded code can raise. -/
inductive PyError
  | typeError
  | attributeError
  | valueError
deriving DecidableEq, Repr

/-- A row of the `document_jobs` table (`DocumentJob` in
`src/models/document_job.py`).  Timestamps are `Nat`; JSONB payloads are
modelled as `Option String`. -/
structure DocumentJob where
  id : Nat
  document_id : Nat
  user_id : Option Nat
  job_type : DocumentJobType
  status : DocumentJobStatus
  parent_job_id : Option Nat
  retry_of_job_id : Option Nat
  started_at : Option Nat
  finished_at : Option Nat
  output_data : Option String
  error_message : Option String
  updated_at : Nat
deriving DecidableEq, Repr

/-- `DocumentJob.mark_running`: sets status RUNNING and stamps
`started_at`/`updated_at`. -/
def markRunning (j : DocumentJob) (now : Nat) : DocumentJob :=
  { j with status := .running, started_at := some now, updated_at := now }

/-- `DocumentJob.mark_success`: sets status SUCCESS, stores the output when
truthy, clears `error_message`, stamps `finished_at`/`updated_at`. -/
def markSuccess (j : DocumentJob) (output : Option String) (now : Nat) : DocumentJob :=
  { j with
      status := .success
      output_data := match output with | some o => some o | none => j.output_data
      error_message := none
      finished_at := some now
      updated_at := now }

/-- Python string slicing `error[:512]` applied to an `Optional[str]` value:
slicing `None` raises `TypeError`. -/
def pySliceStr (s : Option String) (n : Nat) : Except PyError String :=
  match s with
  | none => .error .typeError
  | some s => .ok (s.take n)

/-- `DocumentJob.mark_failure(error)`: unconditionally evaluates `error[:512]`
(so a `None` argument raises `TypeError`), then sets status FAILURE and stamps
`finished_at`/`updated_at`. -/
def markFailure (j : DocumentJob) (error : Option String) (now : Nat) :
    Except PyError DocumentJob :=
  match pySliceStr error 512 with
  | .error e => .error e
  | .ok msg =>
      .ok { j with
              status := .failure
              error_message := some msg
              finished_at := some now
              updated_at := now }

/-- `DocumentJob.mark_retrying`: sets status RETRYING and stamps `updated_at`.
The attempt-count increment in the source is commented out and the model has
no attempt-count column; nothing else changes. -/
def markRetrying (j : DocumentJob) (now : Nat) : DocumentJob :=
  { j with status := .retrying, updated_at := now }

/-- `DocumentJob.mark_timeout`: sets status TIMEOUT and stamps
`finished_at`/`updated_at`. -/
def markTimeout (j : DocumentJob) (now : Nat) : DocumentJob :=
  { j with status := .timeout, finished_at := some now, updated_at := now }

/-- `DocumentJob.is_terminal`: status is one of SUCCESS, CANCELLED, TIMEOUT,
FAILURE. -/
def isTerminal (j : DocumentJob) : Bool :=
  match j.status with
  | .success => true
  | .cancelled => true
  | .timeout => true
  | .failure => true
  | _ => false

/-- Description of a (partial) database index declaration. -/
structure PartialIndexSpec where
  indexName : String
  columns : List String
  isUnique : Bool
  whereStatusEquals : String
deriving DecidableEq, Repr

/-- The index declared in `DocumentJob.__table_args__`: a unique index on
(`document_id`, `job_type`, `status`) with `postgresql_where` restricting it
to rows whose status is the string value of `DocumentJobStatus.RUNNING`. -/
def ixDocumentJobsUniqueRunning : PartialIndexSpec :=
  { indexName := "ix_document_jobs_unique_running"
    columns := ["document_id", "job_type", "status"]
    isUnique := true
    whereStatusEquals := "running" }

/-- The primary-key constraint of the `document_jobs` table: row ids are
pairwise distinct. -/
def primaryKeyOk (rows : List DocumentJob) : Prop :=
  (rows.map (fun r => r.id)).Nodup

/-- Semantics of `ix_document_jobs_unique_running` as declared in the source:
among rows satisfying the partial-index predicate (status RUNNING), any two
rows that agree on all three indexed columns (`document_id`, `job_type`,
`status`) are the same row. -/
def uniqueRunningIndexOk (rows : List DocumentJob) : Prop :=
  ∀ r1 ∈ rows, ∀ r2 ∈ rows,
    r1.status = DocumentJobStatus.running → r2.status = DocumentJobStatus.running →
    r1.document_id = r2.document_id → r1.job_type = r2.job_type →
    r1.status = r2.status → r1.id = r2.id

/-- Semantics of the index form used by the specification text: a unique
partial index on (`document_id`, `job_type`) restricted to status RUNNING. -/
def uniqueRunningPairIndexOk (rows : List DocumentJob) : Prop :=
  ∀ r1 ∈ rows, ∀ r2 ∈ rows,
    r1.status = DocumentJobStatus.running → r2.status = DocumentJobStatus.running →
    r1.document_id = r2.document_id → r1.job_type = r2.job_type →
    r1.id = r2.id

/-- Number of RUNNING rows of the table for a given (document, job type). -/
def runningCount (rows : List DocumentJob) (d : Nat) (t : DocumentJobType) : Nat :=
  rows.countP (fun r =>
    decide (r.status = DocumentJobStatus.running ∧ r.document_id = d ∧ r.job_type = t))

/-- One version of a storage key in the versioned MinIO bucket
(`src/utils/minio_storage.py`; versioning is enabled by
`_ensure_bucket_and_versioning`, so every version carries a version id). -/
structure ObjVersion where
  version_id : String
  last_modified : Nat
  is_delete_marker : Bool
  content : String
deriving DecidableEq, Repr

/-- Python `max(versions, key=_last_modified)`: the first element attaining
the maximal `last_modified` (later elements replace the current maximum only
when strictly greater), or `none` for the empty list. -/
def pyMaxByLastModified (vs : List ObjVersion) : Option ObjVersion :=
  match vs with
  | [] => none
  | v :: rest =>
      some (rest.foldl (fun acc w => if w.last_modified > acc.last_modified then w else acc) v)

/-- `MinioClient._latest_version`: the version of the key with the greatest
`last_modified` (Python `max` semantics on the listing order). -/
def latestVersion (s : List ObjVersion) : Option ObjVersion :=
  pyMaxByLastModified s

/-- `MinioClient._latest_delete_marker_version`: the delete-marker version
with the greatest `last_modified`. -/
def latestDeleteMarkerVersion (s : List ObjVersion) : Option ObjVersion :=
  pyMaxByLastModified (s.filter (fun v => v.is_delete_marker))

/-- `client.remove_object(bucket, key)` on a versioned bucket: stacks a fresh
delete-marker version on the key (listed first, newest). -/
def addDeleteMarker (s : List ObjVersion) (freshVid : String) (now : Nat) :
    List ObjVersion :=
  { version_id := freshVid, last_modified := now, is_delete_marker := true,
    content := "" } :: s

/-- `client.remove_object(bucket, key, version_id=v)`: permanently removes the
version with that id. -/
def removeVersion (s : List ObjVersion) (vid : String) : List ObjVersion :=
  s.filter (fun v => v.version_id ≠ vid)

/-- Successful result payload of `MinioClient.soft_delete_document`. -/
structure SoftDeleteOk where
  delete_marker_version_id : String
deriving DecidableEq, Repr

/-- `MinioClient.soft_delete_document`: adds a delete marker, then fetches the
latest version and the latest delete-marker version and raises `ValueError`
unless they agree on `last_modified` or on `version_id`; on success it returns
the delete-marker version id.  The result pairs the returned value with the
key state after the call. -/
def softDeleteDocument (s : List ObjVersion) (freshVid : String) (now : Nat) :
    Except String SoftDeleteOk × List ObjVersion :=
  let s2 := addDeleteMarker s freshVid now
  match latestVersion s2, latestDeleteMarkerVersion s2 with
  | some lv, some ldm =>
      if ldm.last_modified ≠ lv.last_modified ∧ ldm.version_id ≠ lv.version_id then
        (.error "Delete marker version is not the latest version", s2)
      else
        (.ok { delete_marker_version_id := ldm.version_id }, s2)
  | some _, none => (.error "Invalid version information", s2)
  | none, _ => (.error "Invalid version information", s2)

/-- Successful result payload of `MinioClient.restore_document`. -/
structure RestoreOk where
  last_version : String
deriving DecidableEq, Repr

/-- `MinioClient.restore_document(object_name, version_id)`: lists versions,
computes the latest version and the latest delete-marker version, raises
`ValueError` when either is missing, when they agree on neither
`last_modified` nor `version_id`, when the delete-marker version id is empty,
or when it differs from the supplied `version_id`; otherwise removes the
delete-marker version and returns the id of the version that is now latest
(failing if none remains or it is itself a delete marker).  The result pairs
the returned value with the key state after the call. -/
def restoreDocument (s : List ObjVersion) (version_id : String) :
    Except String RestoreOk × List ObjVersion :=
  match latestVersion s, latestDeleteMarkerVersion s with
  | some lv, some ldm =>
      if ldm.last_modified ≠ lv.last_modified ∧ ldm.version_id ≠ lv.version_id then
        (.error "Delete marker version is not the latest version", s)
      else if ldm.version_id = "" then
        (.error "Delete marker version ID is empty", s)
      else if ldm.version_id ≠ version_id then
        (.error "Delete marker version mismatch", s)
      else
        let s2 := removeVersion s ldm.version_id
        match latestVersion s2 with
        | none => (.error "Object does not exist after delete marker removal", s2)
        | some cv =>
            if cv.is_delete_marker then
              (.error "After delete marker removal, new delete marker exists", s2)
            else
              (.ok { last_version := cv.version_id }, s2)
  | some _, none => (.error "Invalid version information", s)
  | none, _ => (.error "Invalid version information", s)

/-- Whether an `Except` value is a success. -/
def exceptIsOk {ε α : Type} : Except ε α → Bool
  | .ok _ => true
  | .error _ => false

/-- Decidable equality of `Except` values over decidable payload types. -/
instance exceptDecidableEq {ε α : Type} [DecidableEq ε] [DecidableEq α] :
    DecidableEq (Except ε α) := fun x y =>
  match x, y with
  | .ok a, .ok b =>
      if h : a = b then .isTrue (by rw [h]) else
        .isFalse (by intro hh; injection hh with h2; exact h h2)
  | .ok _, .error _ => .isFalse (by intro hh; exact Except.noConfusion hh)
  | .error _, .ok _ => .isFalse (by intro hh; exact Except.noConfusion hh)
  | .error e, .error f =>
      if h : e = f then .isTrue (by rw [h]) else
        .isFalse (by intro hh; injection hh with h2; exact h h2)

/-- A row of the `documents` table (`Document` in `src/models/document.py`).
The `storage_status` column is a plain string ("active", "deleted",
"archived", "uploading"). -/
structure DocumentRow where
  id : Nat
  user_id : Nat
  checksum : String
  storage_key : Option String
  storage_status : String
  processing_status : String
  version_id : Option String
  is_deleted : Bool
  deleted_at : Option Nat
  updated_at : Nat
deriving DecidableEq, Repr

/-- `DocumentCRUD.soft_delete`: sets `storage_status` DELETED,
`processing_status` SUCCESS, the soft-delete flag and timestamps, and stores
the delete-marker version id. -/
def crudSoftDelete (d : DocumentRow) (deleted_at updated_at : Nat)
    (version_id : Option String) : DocumentRow :=
  { d with
      storage_status := "deleted"
      processing_status := "success"
      is_deleted := true
      deleted_at := some deleted_at
      updated_at := updated_at
      version_id := version_id }

/-- `DocumentCRUD.restore`: sets `storage_status` ARCHIVED (not ACTIVE),
`processing_status` SUCCESS, clears the soft-delete flag, and stores the
restored version id. -/
def crudRestore (d : DocumentRow) (deleted_at : Option Nat) (updated_at : Nat)
    (version_id : Option String) : DocumentRow :=
  { d with
      storage_status := "archived"
      processing_status := "success"
      is_deleted := false
      deleted_at := deleted_at
      updated_at := updated_at
      version_id := version_id }

/-- `DocumentCRUD.get_by_checksum_and_user`: first document of the user with
the given checksum that is not soft-deleted. -/
def getByChecksumAndUser (docs : List DocumentRow) (checksum : String)
    (user_id : Nat) : Option DocumentRow :=
  docs.find? (fun d =>
    d.checksum == checksum && d.user_id == user_id &&
    !d.is_deleted && d.deleted_at == none)

/-- Composition performed by `soft_delete_document_task` followed by
`restore_document_task` (in `src/workers/document/object_storage.py`) on a
single document, in the failure-free path: MinIO soft delete, DB soft delete
storing the returned delete-marker version id, then MinIO restore invoked
with the version id stored on the row, then the DB restore update.  Returns
the final key state and document row. -/
def softDeleteThenRestoreRun (s : List ObjVersion) (d : DocumentRow)
    (freshVid : String) (tDel tRes : Nat) :
    Except String (List ObjVersion × DocumentRow) :=
  match softDeleteDocument s freshVid tDel with
  | (.error e, _) => .error e
  | (.ok sd, s1) =>
      let d1 := crudSoftDelete d tDel tDel (some sd.delete_marker_version_id)
      match d1.version_id with
      | none => .error "Document has no version for restoration"
      | some vid =>
          match restoreDocument s1 vid with
          | (.error e, _) => .error e
          | (.ok ro, s2) =>
              .ok (s2, crudRestore d1 none tRes (some ro.last_version))

/-- Outcome of the job-dispatch prefix of
`VectorizationService._execute_job`, when it proceeds to run the stage logic:
whether it reused an existing RETRYING job, and the `retry_of_job_id` set on
a newly created job. -/
inductive ExecuteJobStep
  | runsLogic (reusedRetryingJob : Bool) (retryOfJobId : Option Nat)
deriving DecidableEq, Repr

/-- Errors raised by the job-dispatch prefix of `_execute_job`. -/
inductive ExecuteJobError
  | pyAttributeError
  | businessLogicNotRetryable
deriving DecidableEq, Repr

/-- The job-dispatch prefix of `VectorizationService._execute_job` (lines
49-99): `validate_job` starts as `None`; when the latest job of the type is
terminal with status SUCCESS and the type is EMBED_CHUNKS the code returns
`(..., validate_job.id)`, which evaluates `None.id` and raises
`AttributeError`; any other terminal latest job (including SUCCESS for other
stage types) leads to a fresh PENDING job with `retry_of_job_id` pointing at
it, after which the stage logic runs; a RETRYING latest job is reused; any
other latest state raises `BusinessLogicError`; with no latest job a fresh
job is created and the stage logic runs. -/
def executeJobDispatch (existing : Option DocumentJob) (job_type : DocumentJobType) :
    Except ExecuteJobError ExecuteJobStep :=
  match existing with
  | some j =>
      if isTerminal j then
        if j.status = DocumentJobStatus.success ∧ job_type = DocumentJobType.embed_chunks then
          .error .pyAttributeError
        else
          .ok (.runsLogic false (some j.id))
      else if j.status = DocumentJobStatus.retrying then
        .ok (.runsLogic true none)
      else
        .error .businessLogicNotRetryable
  | none => .ok (.runsLogic false none)

/-- Job-row marking applied by a stage's error handling. -/
inductive JobMark
  | failure
  | retrying
deriving DecidableEq, Repr

/-- What the enclosing celery task does with the exception surfaced by the
service layer. -/
inductive TaskAction
  | queueRetry
  | noRetry
deriving DecidableEq, Repr

/-- Kind of exception raised while a stage's side-effecting logic (or its DB
bookkeeping) runs. -/
inductive LogicError
  | businessLogic
  | dbIntegrity
  | dbOperational
  | netConnection
  | netTimeout
  | netRequest
  | s3
  | appExternalService
  | validation
  | otherExc
deriving DecidableEq, Repr

/-- Application exception re-raised by a service layer to its celery task. -/
inductive RaisedToTask
  | businessLogicErr
  | resourceConflictErr
  | databaseErr
  | externalServiceErr
  | validationErr
  | unexpectedExc
deriving DecidableEq, Repr

/-- The except-chain of `VectorizationService._execute_job` (lines 110-199):
`BusinessLogicError` marks the job FAILURE and re-raises; `IntegrityError`
marks FAILURE and raises `ResourceConflictError`; `SQLAlchemyError` marks
FAILURE and raises `DatabaseError`; `ConnectionError`/`Timeout`/
`RequestException`/`S3Error` mark the job RETRYING and raise
`ExternalServiceError`; every other exception (including `ValidationError`
and an `ExternalServiceError` raised directly by the stage logic) falls to
the generic handler, which marks FAILURE and re-raises the original. -/
def executeJobErrorHandling : LogicError → JobMark × RaisedToTask
  | .businessLogic => (.failure, .businessLogicErr)
  | .dbIntegrity => (.failure, .resourceConflictErr)
  | .dbOperational => (.failure, .databaseErr)
  | .netConnection => (.retrying, .externalServiceErr)
  | .netTimeout => (.retrying, .externalServiceErr)
  | .netRequest => (.retrying, .externalServiceErr)
  | .s3 => (.retrying, .externalServiceErr)
  | .appExternalService => (.failure, .externalServiceErr)
  | .validation => (.failure, .validationErr)
  | .otherExc => (.failure, .unexpectedExc)

/-- The except-chain of `process_document_task` in
`src/workers/document/vector_storage.py` (lines 81-104):
`BusinessLogicError`, `ResourceConflictError` and `DatabaseError` are treated
as business errors and not retried; `ExternalServiceError` triggers
`self.retry`; everything else is re-raised without a retry. -/
def processDocumentTaskAction : RaisedToTask → TaskAction
  | .businessLogicErr => .noRetry
  | .resourceConflictErr => .noRetry
  | .databaseErr => .noRetry
  | .externalServiceErr => .queueRetry
  | .validationErr => .noRetry
  | .unexpectedExc => .noRetry

/-- The except-chain of `DocumentService.upload_document` (lines 405-498,
with the inner MinIO handler of lines 312-348 first converting network and
S3 failures into `ExternalServiceError`): conflicts, business, database and
validation errors mark the job FAILURE; `IntegrityError` marks FAILURE and
raises `ResourceConflictError`; `SQLAlchemyError` marks FAILURE and raises
`DatabaseError`; `ExternalServiceError` marks the job RETRYING and
re-raises; unknown exceptions mark FAILURE and re-raise. -/
def uploadServiceErrorHandling : LogicError → JobMark × RaisedToTask
  | .businessLogic => (.failure, .businessLogicErr)
  | .dbIntegrity => (.failure, .resourceConflictErr)
  | .dbOperational => (.failure, .databaseErr)
  | .netConnection => (.retrying, .externalServiceErr)
  | .netTimeout => (.retrying, .externalServiceErr)
  | .netRequest => (.retrying, .externalServiceErr)
  | .s3 => (.retrying, .externalServiceErr)
  | .appExternalService => (.retrying, .externalServiceErr)
  | .validation => (.failure, .validationErr)
  | .otherExc => (.failure, .unexpectedExc)

/-- The except-chain of `upload_document_task` in
`src/workers/document/object_storage.py` (lines 116-128):
`ResourceConflictError`, `BusinessLogicError` and `ValidationError` are not
retried; `ExternalServiceError` and `DatabaseError` trigger `self.retry`;
everything else is re-raised without a retry. -/
def uploadTaskAction : RaisedToTask → TaskAction
  | .businessLogicErr => .noRetry
  | .resourceConflictErr => .noRetry
  | .databaseErr => .queueRetry
  | .externalServiceErr => .queueRetry
  | .validationErr => .noRetry
  | .unexpectedExc => .noRetry

/-- End-to-end failure behaviour of a vectorization stage (extract, chunk,
embed): how the job row is marked by `_execute_job` and what
`process_document_task` does with the surfaced exception. -/
def vectorStageBehavior (e : LogicError) : JobMark × TaskAction :=
  ((executeJobErrorHandling e).1, processDocumentTaskAction (executeJobErrorHandling e).2)

/-- End-to-end failure behaviour of the upload stage: how the job row is
marked by `DocumentService.upload_document` and what `upload_document_task`
does with the surfaced exception. -/
def uploadStageBehavior (e : LogicError) : JobMark × TaskAction :=
  ((uploadServiceErrorHandling e).1, uploadTaskAction (uploadServiceErrorHandling e).2)

/-- `max_retries` of `process_document_task` (decorator in
`src/workers/document/vector_storage.py`). -/
def processDocumentTaskMaxRetries : Nat := 3

/-- `max_retries` of `upload_document_task` (decorator in
`src/workers/document/object_storage.py`). -/
def uploadTaskMaxRetries : Nat := 3

/-- `max_retries` of `soft_delete_document_task` (decorator in
`src/workers/document/object_storage.py`). -/
def softDeleteTaskMaxRetries : Nat := 3

/-- Observable effects of running `soft_delete_document_task` to completion
under the scenario of claim C3. -/
structure SoftDeleteScenarioTrace where
  bodyExecutions : Nat
  minioDeleteCalls : Nat
  restoreCalls : Nat
  criticalLogged : Bool
deriving DecidableEq, Repr

/-- Deliveries of `soft_delete_document_task` under the scenario: the MinIO
soft delete succeeds and the DB commit raises on every delivery.  The
argument is the remaining retry budget (`max_retries - request.retries`).
Each delivery runs the task body (one MinIO delete call) and enters the
`DatabaseError` handler (lines 244-270): when `request.retries >=
max_retries` (remaining budget 0) it attempts exactly one compensating
`restore_document` call and logs the CRITICAL inconsistency message iff that
call raises; then `raise self.retry(...)` either redelivers (budget left) or
surfaces the error, ending the task. -/
def softDeleteDbFailAux (restoreSucceeds : Bool) : Nat → SoftDeleteScenarioTrace
  | 0 =>
      { bodyExecutions := 1
        minioDeleteCalls := 1
        restoreCalls := 1
        criticalLogged := !restoreSucceeds }
  | n + 1 =>
      let t := softDeleteDbFailAux restoreSucceeds n
      { bodyExecutions := t.bodyExecutions + 1
        minioDeleteCalls := t.minioDeleteCalls + 1
        restoreCalls := t.restoreCalls
        criticalLogged := t.criticalLogged }

/-- Full run of `soft_delete_document_task` under the C3 scenario, starting
at `request.retries = 0` with the configured `max_retries`. -/
def softDeleteDbFailRun (restoreSucceeds : Bool) : SoftDeleteScenarioTrace :=
  softDeleteDbFailAux restoreSucceeds softDeleteTaskMaxRetries

/-- Deliveries of `process_document_task` for a stage whose logic raises a
network error on every delivery: `_execute_job` marks the job RETRYING
(modelling `updated_at` by the attempt index) and raises
`ExternalServiceError`; the task calls `self.retry`, which redelivers while
the remaining budget (third argument unavailable here: second argument is
`request.retries`, first the job row; the final argument is the remaining
budget `max_retries - request.retries`) is positive and otherwise surfaces
the error.  Returns the final job row and the number of body executions. -/
def vectorStageAttemptsAux : DocumentJob → Nat → Nat → DocumentJob × Nat
  | j, retries, 0 => (markRetrying j retries, 1)
  | j, retries, n + 1 =>
      let j2 := markRetrying j retries
      let r := vectorStageAttemptsAux j2 (retries + 1) n
      (r.1, r.2 + 1)

/-- Full run of `process_document_task` for a persistently network-failing
stage, starting at `request.retries = 0` with the configured
`max_retries`. -/
def vectorStageAttempts (j : DocumentJob) : DocumentJob × Nat :=
  vectorStageAttemptsAux j 0 processDocumentTaskMaxRetries

/-- Parameter names accepted by `permanent_delete_document_task(self, doc_id,
user_id)` in `src/workers/document/object_storage.py` (besides the bound
`self`). -/
def permanentDeleteTaskParams : List String := ["doc_id", "user_id"]

/-- Keyword arguments with which `schedule_permanent_deletion_task` builds
each fanned-out signature (lines 641-645). -/
def scheduledDeletionKwargs : List String := ["doc_id", "user_id", "storage_key"]

/-- A per-document entry produced by `_find_expired_documents`. -/
structure ExpiredDocInfo where
  doc_id : Nat
  user_id : Nat
  storage_key : String
deriving DecidableEq, Repr

/-- A celery task signature: target task plus keyword-argument names. -/
structure TaskSignature where
  taskName : String
  kwargs : List String
deriving DecidableEq, Repr

/-- Python call binding for a function without a `**kwargs` catch-all: every
supplied keyword argument must name a declared parameter, otherwise the call
raises `TypeError` before the body runs. -/
def pyBindKwargs (params kwargs : List String) : Except PyError Unit :=
  if kwargs.all (fun k => params.contains k) then .ok () else .error .typeError

/-- The fan-out of `schedule_permanent_deletion_task`: one
`permanent_delete_document_task` signature per expired document, each with
keyword arguments `doc_id`, `user_id` and `storage_key`. -/
def schedulePermanentDeletionSignatures (expired : List ExpiredDocInfo) :
    List TaskSignature :=
  expired.map (fun _ =>
    { taskName := "permanent_delete_document_task", kwargs := scheduledDeletionKwargs })

/-- Worker-side invocation of a `permanent_delete_document_task` signature:
bind the keyword arguments against the task's parameters; only if binding
succeeds does the body run and delete the document. -/
def invokePermanentDelete (sig : TaskSignature) : Except PyError String :=
  match pyBindKwargs permanentDeleteTaskParams sig.kwargs with
  | .error e => .error e
  | .ok _ => .ok "deleted"

/-- Errors raised by the dedup prefix of `DocumentService.upload_document`. -/
inductive UploadError
  | resourceConflictDuplicateActive
  | businessLogicNotRetryable
deriving DecidableEq, Repr

/-- The checksum-dedup prefix of `DocumentService.upload_document` (lines
204-318): look up a live document of the user by checksum; when one exists
with `storage_status == "active"` raise `ResourceConflictError` before any
object-store call; otherwise run the upload-job bookkeeping (terminal latest
job: fresh job; RETRYING latest job: reuse; other latest state:
`BusinessLogicError`) and proceed to the single `upload_file` call.  Returns
the result (document id) paired with the number of object-store writes
performed. -/
def uploadDocumentDedup (docs : List DocumentRow) (user_id : Nat) (checksum : String)
    (latestUploadJob : Option DocumentJob) (newDocId : Nat) :
    Except UploadError Nat × Nat :=
  match getByChecksumAndUser docs checksum user_id with
  | some existing =>
      if existing.storage_status = "active" then
        (.error .resourceConflictDuplicateActive, 0)
      else
        match latestUploadJob with
        | some j =>
            if isTerminal j then (.ok existing.id, 1)
            else if j.status = DocumentJobStatus.retrying then (.ok existing.id, 1)
            else (.error .businessLogicNotRetryable, 0)
        | none => (.ok existing.id, 1)
  | none => (.ok newDocId, 1)

/-- Fixture: a RUNNING EMBED_CHUNKS job row for document 1. -/
def jobRunningExample : DocumentJob :=
  { id := 1, document_id := 1, user_id := some 1, job_type := .embed_chunks,
    status := .running, parent_job_id := none, retry_of_job_id := none,
    started_at := some 1, finished_at := none, output_data := none,
    error_message := none, updated_at := 1 }

/-- Fixture: a SUCCESS EXTRACT_TEXT job row for document 1. -/
def jobSuccessExample : DocumentJob :=
  { id := 2, document_id := 1, user_id := some 1, job_type := .extract_text,
    status := .success, parent_job_id := none, retry_of_job_id := none,
    started_at := some 1, finished_at := some 2, output_data := some "text",
    error_message := none, updated_at := 2 }

/-- Fixture: a small `document_jobs` table. -/
def rowsExample : List DocumentJob := [jobRunningExample, jobSuccessExample]

/-- Fixture: latest EMBED_CHUNKS job of a document, already SUCCESS. -/
def succEmbedJob : DocumentJob :=
  { id := 20, document_id := 5, user_id := some 1, job_type := .embed_chunks,
    status := .success, parent_job_id := some 19, retry_of_job_id := none,
    started_at := some 4, finished_at := some 5, output_data := some "embedded",
    error_message := none, updated_at := 5 }

/-- Fixture: latest EXTRACT_TEXT job of a document, already SUCCESS. -/
def succExtractJob : DocumentJob :=
  { id := 21, document_id := 5, user_id := some 1, job_type := .extract_text,
    status := .success, parent_job_id := some 18, retry_of_job_id := none,
    started_at := some 2, finished_at := some 3, output_data := some "text",
    error_message := none, updated_at := 3 }

/-- Fixture: the single content version of a stored document. -/
def contentV1 : ObjVersion :=
  { version_id := "v1", last_modified := 1, is_delete_marker := false,
    content := "PDF-BYTES" }

/-- Fixture: key state of an ACTIVE stored document. -/
def storeV1 : List ObjVersion := [contentV1]

/-- Fixture: the ACTIVE document row matching `storeV1`. -/
def docActive : DocumentRow :=
  { id := 7, user_id := 1, checksum := "X", storage_key := some "uploads/k",
    storage_status := "active", processing_status := "success",
    version_id := some "v1", is_deleted := false, deleted_at := none,
    updated_at := 1 }

/-- Fixture: the row produced by the C4 soft-delete/restore round trip. -/
def docRestoredExpected : DocumentRow :=
  { docActive with storage_status := "archived", updated_at := 3 }

/-- Fixture: a content version whose timestamp ties with a delete marker. -/
def tieContent : ObjVersion :=
  { version_id := "a", last_modified := 5, is_delete_marker := false,
    content := "DATA" }

/-- Fixture: a delete marker sharing `last_modified` with `tieContent`. -/
def tieMarker : ObjVersion :=
  { version_id := "b", last_modified := 5, is_delete_marker := true,
    content := "" }

/-- Fixture: key state where the latest version (the content version listed
first) and the latest delete marker tie on `last_modified`. -/
def storeTie : List ObjVersion := [tieContent, tieMarker]

/-- Fixture: a PENDING job about to enter the vectorization retry loop. -/
def jobRetrySeed : DocumentJob :=
  { id := 30, document_id := 8, user_id := some 2, job_type := .embed_chunks,
    status := .pending, parent_job_id := none, retry_of_job_id := none,
    started_at := none, finished_at := none, output_data := none,
    error_message := none, updated_at := 0 }

/-- Fixture: an ACTIVE document with checksum "X" owned by user 1. -/
def docDup : DocumentRow :=
  { id := 40, user_id := 1, checksum := "X", storage_key := some "uploads/dup",
    storage_status := "active", processing_status := "success",
    version_id := some "v9", is_deleted := false, deleted_at := none,
    updated_at := 4 }

/-- Fixture: document table containing only `docDup`. -/
def docsDup : List DocumentRow := [docDup]

/-- Fixture: one expired soft-deleted document found by the retention scan. -/
def expiredExample : ExpiredDocInfo :=
  { doc_id := 50, user_id := 3, storage_key := "uploads/old" }

/-- Fixture: the signature fanned out for `expiredExample`. -/
def sigExpiredExample : TaskSignature :=
  { taskName := "permanent_delete_document_task", kwargs := scheduledDeletionKwargs }

/-- Fixture: a RUNNING job about to be marked failed. -/
def jobSeed : DocumentJob :=
  { id := 60, document_id := 9, user_id := some 4, job_type := .chunk_text,
    status := .running, parent_job_id := none, retry_of_job_id := none,
    started_at := some 8, finished_at := none, output_data := none,
    error_message := none, updated_at := 8 }

/-- Fixture: `jobSeed` after `mark_failure("boom")` at time 9 (the stored
message is the 512-truncation of the error string, as in the source). -/
def jobSeedFailed : DocumentJob :=
  { jobSeed with
      status := .failure
      error_message := some ("boom".take 512)
      finished_at := some 9
      updated_at := 9 }

/-- Helper: a list whose elements pairwise agree on their id wherever a
Boolean predicate holds, and whose ids are pairwise distinct, has at most one
element satisfying the predicate. -/
theorem countP_le_one_of_eq_id (P : DocumentJob → Bool) :
    ∀ rows : List DocumentJob, (rows.map (fun r => r.id)).Nodup →
      (∀ a ∈ rows, ∀ b ∈ rows, P a = true → P b = true → a.id = b.id) →
      rows.countP P ≤ 1 := by
  intro rows
  induction rows with
  | nil => intro _ _; simp
  | cons a l ih =>
      intro hnd hag
      rw [List.countP_cons]
      by_cases hPa : P a = true
      · have hzero : l.countP P = 0 := by
          rw [List.countP_eq_zero]
          intro b hb hPb
          have hid : a.id = b.id :=
            hag a (List.mem_cons_self a l) b (List.mem_cons_of_mem a hb) hPa hPb
          have hmem : b.id ∈ l.map (fun r => r.id) := List.mem_map_of_mem _ hb
          have hnotin : a.id ∉ l.map (fun r => r.id) := by
            rw [List.map_cons] at hnd
            exact (List.nodup_cons.mp hnd).1
          exact hnotin (hid ▸ hmem)
        simp [hPa, hzero]
      · have hle : l.countP P ≤ 1 := by
          apply ih
          · rw [List.map_cons] at hnd
            exact (List.nodup_cons.mp hnd).2
          · intro x hx y hy hPx hPy
            exact hag x (List.mem_cons_of_mem a hx) y (List.mem_cons_of_mem a hy) hPx hPy
        simpa [hPa] using hle

/-- C1: for every document D and job type T, a `document_jobs` table that
satisfies its primary key and the declared unique partial index
`ix_document_jobs_unique_running` holds at most one row with status RUNNING
for (D, T); the declared index is unique, restricted to status "running",
and its three-column form is equivalent to a unique partial index on
(document_id, job_type) restricted to RUNNING rows, so the invariant is
carried by the database constraint rather than an in-process lock. -/
theorem c1_at_most_one_running_job (rows : List DocumentJob)
    (hpk : primaryKeyOk rows) (hix : uniqueRunningIndexOk rows) :
    (∀ d t, runningCount rows d t ≤ 1) ∧
    (uniqueRunningIndexOk rows ↔ uniqueRunningPairIndexOk rows) ∧
    ixDocumentJobsUniqueRunning.isUnique = true ∧
    ixDocumentJobsUniqueRunning.whereStatusEquals = "running" := by
  refine ⟨?_, ?_, rfl, rfl⟩
  · intro d t
    unfold runningCount
    apply countP_le_one_of_eq_id _ rows hpk
    intro a ha b hb hPa hPb
    simp only [decide_eq_true_eq] at hPa hPb
    exact hix a ha b hb hPa.1 hPb.1 (hPa.2.1.trans hPb.2.1.symm)
      (hPa.2.2.trans hPb.2.2.symm) (hPa.1.trans hPb.1.symm)
  · constructor
    · intro h r1 h1 r2 h2 hs1 hs2 hd ht
      exact h r1 h1 r2 h2 hs1 hs2 hd ht (hs1.trans hs2.symm)
    · intro h r1 h1 r2 h2 hs1 hs2 hd ht _
      exact h r1 h1 r2 h2 hs1 hs2 hd ht

/-- Witness for C1 on a concrete two-row table. -/
theorem c1_at_most_one_running_job_witness :
    runningCount rowsExample 1 DocumentJobType.embed_chunks ≤ 1 :=
  (c1_at_most_one_running_job rowsExample
    (by unfold primaryKeyOk; decide)
    (by unfold uniqueRunningIndexOk; decide)).1 1 DocumentJobType.embed_chunks

/-- C2: the SUCCESS short-circuit of `_execute_job` is broken: for a document
whose latest EMBED_CHUNKS job already has status SUCCESS the dispatch
evaluates `validate_job.id` while `validate_job` is still `None` and raises
`AttributeError` instead of returning the cached output, and for another
stage type (EXTRACT_TEXT) with a successful latest job the dispatch creates a
fresh job referencing it and re-runs the stage's side-effecting logic. -/
theorem c2_success_short_circuit_crashes :
    executeJobDispatch (some succEmbedJob) DocumentJobType.embed_chunks =
      .error .pyAttributeError ∧
    executeJobDispatch (some succExtractJob) DocumentJobType.extract_text =
      .ok (.runsLogic false (some 21)) := by
  constructor
  · rfl
  · rfl

/-- C3: when the MinIO soft delete succeeds and the DB commit fails on every
delivery of `soft_delete_document_task`, the task body runs `max_retries + 1`
times, exactly one compensating `restore_document` call is attempted (on the
delivery that exhausts the budget), and the CRITICAL inconsistency event is
logged iff the compensating call itself fails. -/
theorem c3_exactly_one_compensating_restore (restoreSucceeds : Bool) :
    (softDeleteDbFailRun restoreSucceeds).restoreCalls = 1 ∧
    ((softDeleteDbFailRun restoreSucceeds).criticalLogged = true ↔
      restoreSucceeds = false) ∧
    (softDeleteDbFailRun restoreSucceeds).bodyExecutions =
      softDeleteTaskMaxRetries + 1 := by
  cases restoreSucceeds <;> decide

/-- C4: soft delete immediately followed by restore with the returned
delete-marker version id brings the object-store key state back byte-identical
to the original, but the document row ends with `storage_status` "archived"
(set by `DocumentCRUD.restore`), not "active" as the round-trip law and the
model method `Document.restore` require. -/
theorem c4_round_trip_restores_archived_not_active :
    softDeleteThenRestoreRun storeV1 docActive "dm1" 2 3 =
      .ok (storeV1, docRestoredExpected) ∧
    docRestoredExpected.storage_status = "archived" ∧
    docRestoredExpected.storage_status ≠ "active" := by
  refine ⟨?_, rfl, ?_⟩
  · decide
  · decide

/-- C5 counterexample: a key state whose latest version is a content version
that merely ties on `last_modified` with the latest delete marker: the two do
not coincide, yet `restore_document` with the delete marker's version id
passes validation, removes the marker and mutates the key state. -/
theorem c5_stale_delete_marker_restore_mutates :
    latestVersion storeTie ≠ latestDeleteMarkerVersion storeTie ∧
    (restoreDocument storeTie "b").1 = .ok { last_version := "a" } ∧
    (restoreDocument storeTie "b").2 ≠ storeTie := by
  refine ⟨by decide, by decide, by decide⟩

/-- C5 (amended): `restore_document` fails with a validation error and leaves
the key state unmutated whenever the supplied version id differs from the
latest delete marker's version id, or the latest version and the latest
delete marker agree on neither `version_id` nor `last_modified`; validation
passes when they share either field. -/
theorem c5_restore_validation_no_mutation (s : List ObjVersion) (vid : String)
    (lv ldm : ObjVersion) (hlv : latestVersion s = some lv)
    (hldm : latestDeleteMarkerVersion s = some ldm)
    (h : ldm.version_id ≠ vid ∨
         (ldm.last_modified ≠ lv.last_modified ∧ ldm.version_id ≠ lv.version_id)) :
    exceptIsOk (restoreDocument s vid).1 = false ∧ (restoreDocument s vid).2 = s := by
  unfold restoreDocument
  rw [hlv, hldm]
  dsimp only
  rcases h with h | h
  · by_cases hg : ldm.last_modified ≠ lv.last_modified ∧ ldm.version_id ≠ lv.version_id
    · rw [if_pos hg]; exact ⟨rfl, rfl⟩
    · rw [if_neg hg]
      by_cases he : ldm.version_id = ""
      · rw [if_pos he]; exact ⟨rfl, rfl⟩
      · rw [if_neg he, if_pos h]; exact ⟨rfl, rfl⟩
  · rw [if_pos h]; exact ⟨rfl, rfl⟩

/-- Witness for the amended C5 on a concrete key state and mismatched id. -/
theorem c5_restore_validation_no_mutation_witness :
    exceptIsOk (restoreDocument storeTie "zzz").1 = false ∧
    (restoreDocument storeTie "zzz").2 = storeTie :=
  c5_restore_validation_no_mutation storeTie "zzz" tieContent tieMarker
    (by decide) (by decide) (Or.inl (by decide))

/-- C6 counterexample: a database failure during a vectorization stage marks
the job FAILURE (not RETRYING) and `process_document_task` signals no queue
retry for it; the upload task does retry `DatabaseError`, but its job row was
likewise marked FAILURE. -/
theorem c6_database_error_marks_failure :
    vectorStageBehavior .dbOperational ≠ (JobMark.retrying, TaskAction.queueRetry) ∧
    vectorStageBehavior .dbOperational = (JobMark.failure, TaskAction.noRetry) ∧
    uploadStageBehavior .dbOperational = (JobMark.failure, TaskAction.queueRetry) := by
  refine ⟨by decide, rfl, rfl⟩

/-- C6 (amended): network and object-store failures mark the job RETRYING and
signal a bounded queue retry (max_retries 3) in both the vectorization and
upload stages; database failures mark the job FAILURE — the vectorization
task signals no retry for them while the upload task retries the task without
re-marking the job; validation failures, integrity conflicts and
business-rule violations mark the job FAILURE immediately with no retry. -/
theorem c6_error_classification :
    vectorStageBehavior .netConnection = (JobMark.retrying, TaskAction.queueRetry) ∧
    vectorStageBehavior .netTimeout = (JobMark.retrying, TaskAction.queueRetry) ∧
    vectorStageBehavior .netRequest = (JobMark.retrying, TaskAction.queueRetry) ∧
    vectorStageBehavior .s3 = (JobMark.retrying, TaskAction.queueRetry) ∧
    uploadStageBehavior .netConnection = (JobMark.retrying, TaskAction.queueRetry) ∧
    uploadStageBehavior .netTimeout = (JobMark.retrying, TaskAction.queueRetry) ∧
    uploadStageBehavior .netRequest = (JobMark.retrying, TaskAction.queueRetry) ∧
    uploadStageBehavior .s3 = (JobMark.retrying, TaskAction.queueRetry) ∧
    vectorStageBehavior .dbOperational = (JobMark.failure, TaskAction.noRetry) ∧
    uploadStageBehavior .dbOperational = (JobMark.failure, TaskAction.queueRetry) ∧
    vectorStageBehavior .businessLogic = (JobMark.failure, TaskAction.noRetry) ∧
    vectorStageBehavior .dbIntegrity = (JobMark.failure, TaskAction.noRetry) ∧
    vectorStageBehavior .validation = (JobMark.failure, TaskAction.noRetry) ∧
    uploadStageBehavior .businessLogic = (JobMark.failure, TaskAction.noRetry) ∧
    uploadStageBehavior .dbIntegrity = (JobMark.failure, TaskAction.noRetry) ∧
    uploadStageBehavior .validation = (JobMark.failure, TaskAction.noRetry) ∧
    processDocumentTaskMaxRetries = 3 ∧ uploadTaskMaxRetries = 3 := by
  decide

/-- Helper: every run of the persistent-network-failure retry loop leaves the
job in status RETRYING and executes the body `remaining + 1` times. -/
theorem vectorStageAttemptsAux_spec :
    ∀ n (j : DocumentJob) (retries : Nat),
      (vectorStageAttemptsAux j retries n).1.status = DocumentJobStatus.retrying ∧
      (vectorStageAttemptsAux j retries n).2 = n + 1 := by
  intro n
  induction n with
  | zero => intro j r; exact ⟨rfl, rfl⟩
  | succ n ih =>
      intro j r
      refine ⟨(ih (markRetrying j r) (r + 1)).1, ?_⟩
      have h2 := (ih (markRetrying j r) (r + 1)).2
      simp [vectorStageAttemptsAux, h2]

/-- C7 counterexample: a stage whose logic fails with a network error on
every delivery reaches the retry bound with its job row still in status
RETRYING — the job does not transition to FAILURE when the bounded maximum
number of attempts is reached. -/
theorem c7_exhaustion_leaves_job_retrying :
    (vectorStageAttempts jobRetrySeed).1.status ≠ DocumentJobStatus.failure ∧
    (vectorStageAttempts jobRetrySeed).1.status = DocumentJobStatus.retrying := by
  refine ⟨by decide, by decide⟩

/-- C7 (amended): `mark_retrying` updates only `status` and `updated_at` —
the job row carries no attempt counter to increment (the increment in the
source is commented out); attempts are counted by the queue, the stage body
runs exactly `max_retries + 1` times under persistent failure, and once the
bound is reached the error surfaces with the job row remaining RETRYING. -/
theorem c7_retrying_updates_only_status (j : DocumentJob) (now : Nat) :
    (markRetrying j now).status = DocumentJobStatus.retrying ∧
    (markRetrying j now).id = j.id ∧
    (markRetrying j now).document_id = j.document_id ∧
    (markRetrying j now).user_id = j.user_id ∧
    (markRetrying j now).job_type = j.job_type ∧
    (markRetrying j now).parent_job_id = j.parent_job_id ∧
    (markRetrying j now).retry_of_job_id = j.retry_of_job_id ∧
    (markRetrying j now).started_at = j.started_at ∧
    (markRetrying j now).finished_at = j.finished_at ∧
    (markRetrying j now).output_data = j.output_data ∧
    (markRetrying j now).error_message = j.error_message ∧
    (vectorStageAttempts j).2 = processDocumentTaskMaxRetries + 1 ∧
    (vectorStageAttempts j).1.status = DocumentJobStatus.retrying := by
  refine ⟨rfl, rfl, rfl, rfl, rfl, rfl, rfl, rfl, rfl, rfl, rfl, ?_, ?_⟩
  · exact (vectorStageAttemptsAux_spec processDocumentTaskMaxRetries j 0).2
  · exact (vectorStageAttemptsAux_spec processDocumentTaskMaxRetries j 0).1

/-- C8 counterexample: uploading a file whose checksum matches an existing
ACTIVE document of the same user makes `upload_document` raise
`ResourceConflictError` with no object-store write — it does not return the
existing record. -/
theorem c8_duplicate_active_upload_conflicts :
    uploadDocumentDedup docsDup 1 "X" none 99 =
      (.error .resourceConflictDuplicateActive, 0) ∧
    (uploadDocumentDedup docsDup 1 "X" none 99).1 ≠ .ok docDup.id := by
  refine ⟨by decide, by decide⟩

/-- C8 (amended): whenever the checksum dedup lookup finds an ACTIVE document
of the same user, `upload_document` raises `ResourceConflictError` and
performs no new object-store write. -/
theorem c8_duplicate_active_no_store_write (docs : List DocumentRow)
    (user_id : Nat) (checksum : String) (latestUploadJob : Option DocumentJob)
    (newDocId : Nat) (d : DocumentRow)
    (hfind : getByChecksumAndUser docs checksum user_id = some d)
    (hactive : d.storage_status = "active") :
    uploadDocumentDedup docs user_id checksum latestUploadJob newDocId =
      (.error .resourceConflictDuplicateActive, 0) := by
  unfold uploadDocumentDedup
  rw [hfind]
  simp [hactive]

/-- Witness for the amended C8 on a concrete duplicate ACTIVE document. -/
theorem c8_duplicate_active_no_store_write_witness :
    uploadDocumentDedup docsDup 1 "X" none 99 =
      (.error .resourceConflictDuplicateActive, 0) :=
  c8_duplicate_active_no_store_write docsDup 1 "X" none 99 docDup
    (by decide) (by decide)

/-- C9: every permanent-delete signature fanned out by
`schedule_permanent_deletion_task` carries a `storage_key` keyword argument
that `permanent_delete_document_task(self, doc_id, user_id)` does not accept,
so its invocation raises `TypeError` before the body runs and no document is
deleted. -/
theorem c9_retention_fanout_type_error (expired : List ExpiredDocInfo)
    (t : TaskSignature) (ht : t ∈ schedulePermanentDeletionSignatures expired) :
    invokePermanentDelete t = .error .typeError ∧
    invokePermanentDelete t ≠ .ok "deleted" := by
  unfold schedulePermanentDeletionSignatures at ht
  obtain ⟨d, hd, rfl⟩ := List.mem_map.mp ht
  refine ⟨by decide, by decide⟩

/-- Witness for C9 on a concrete one-document retention batch. -/
theorem c9_retention_fanout_type_error_witness :
    invokePermanentDelete sigExpiredExample = .error .typeError ∧
    invokePermanentDelete sigExpiredExample ≠ .ok "deleted" :=
  c9_retention_fanout_type_error [expiredExample] sigExpiredExample (by decide)

/-- C10: `mark_failure` with `error = None` raises `TypeError` because the
implementation unconditionally slices `error[:512]`, and consequently every
job that reaches status FAILURE through `mark_failure` carries a non-null
`error_message`. -/
theorem c10_mark_failure_none_raises (j : DocumentJob) (e : String) (now : Nat)
    (j2 : DocumentJob) (h : markFailure j (some e) now = .ok j2) :
    markFailure j none now = .error .typeError ∧
    j2.status = DocumentJobStatus.failure ∧ j2.error_message.isSome = true := by
  have h2 : ({ j with
                 status := .failure
                 error_message := some (e.take 512)
                 finished_at := some now
                 updated_at := now } : DocumentJob) = j2 := by
    simpa [markFailure, pySliceStr] using h
  refine ⟨rfl, ?_, ?_⟩
  · rw [← h2]
  · rw [← h2]
    rfl

/-- Witness for C10 on a concrete job and error string. -/
theorem c10_mark_failure_none_raises_witness :
    markFailure jobSeed none 9 = .error .typeError ∧
    jobSeedFailed.status = DocumentJobStatus.failure ∧
    jobSeedFailed.error_message.isSome = true :=
  c10_mark_failure_none_raises jobSeed "boom" 9 jobSeedFailed (by rfl)

/-- Witness for C3 at a concrete failing compensation. -/
theorem c3_exactly_one_compensating_restore_witness :
    (softDeleteDbFailRun false).restoreCalls = 1 ∧
    ((softDeleteDbFailRun false).criticalLogged = true ↔ false = false) ∧
    (softDeleteDbFailRun false).bodyExecutions = softDeleteTaskMaxRetries + 1 :=
  c3_exactly_one_compensating_restore false

/-- Witness for the amended C7 at a concrete job. -/
theorem c7_retrying_updates_only_status_witness :
    (markRetrying jobRetrySeed 1).status = DocumentJobStatus.retrying ∧
    (markRetrying jobRetrySeed 1).id = jobRetrySeed.id ∧
    (markRetrying jobRetrySeed 1).document_id = jobRetrySeed.document_id ∧
    (markRetrying jobRetrySeed 1).user_id = jobRetrySeed.user_id ∧
    (markRetrying jobRetrySeed 1).job_type = jobRetrySeed.job_type ∧
    (markRetrying jobRetrySeed 1).parent_job_id = jobRetrySeed.parent_job_id ∧
    (markRetrying jobRetrySeed 1).retry_of_job_id = jobRetrySeed.retry_of_job_id ∧
    (markRetrying jobRetrySeed 1).started_at = jobRetrySeed.started_at ∧
    (markRetrying jobRetrySeed 1).finished_at = jobRetrySeed.finished_at ∧
    (markRetrying jobRetrySeed 1).output_data = jobRetrySeed.output_data ∧
    (markRetrying jobRetrySeed 1).error_message = jobRetrySeed.error_message ∧
    (vectorStageAttempts jobRetrySeed).2 = processDocumentTaskMaxRetries + 1 ∧
    (vectorStageAttempts jobRetrySeed).1.status = DocumentJobStatus.retrying :=
  c7_retrying_updates_only_status jobRetrySeed 1
